import Mathlib

/-!
Verification development for the alfredo-legacy WhatsApp bot
(src/whatsapp-unofficial-bot/main.ts).

The bot is a thin chat-relay transport around an HTTP calendar API.
We embed the `message_create` handler (main.ts lines 79 to 241) as a pure
Lean function: the HTTP transport is an oracle parameter, JSON response
bodies are modelled by the inductive `JVal`, and the two per-chat flag
maps (`activeAgents`, `chatModeActive`) are modelled as Boolean-valued
functions on chat identifiers (a JS `Map` holding only the value `true`,
where `get` on a missing key is falsy).

JavaScript idioms are embedded as follows: template interpolation of a
value is `JVal.render`; `x || fallback` on a JSON value tests `JVal.truthy`;
optional chaining `a?.b` coincides with total field access `JVal.get`
because `get` on a non-object returns `null`. Number-valued counter fields
are modelled as naturals rendered in decimal by `natStr`. A non-array value
in an array position (`tools_used`, `notifications`) is treated as the
empty array; the real API never produces one there.
-/

namespace Alfredo

/-- Decimal digit character for a digit value below ten. -/
def digitChar : Nat → Char
  | 0 => '0'
  | 1 => '1'
  | 2 => '2'
  | 3 => '3'
  | 4 => '4'
  | 5 => '5'
  | 6 => '6'
  | 7 => '7'
  | 8 => '8'
  | _ => '9'

/-- Fuel-driven digit extraction: for `n ≤ fuel` this produces the decimal
digits of `n`, most significant first (empty for zero). -/
def natDigitsAux : Nat → Nat → List Char
  | 0, _ => []
  | fuel + 1, n => if n = 0 then [] else natDigitsAux fuel (n / 10) ++ [digitChar (n % 10)]

/-- Decimal representation of a natural number as a list of characters,
most significant digit first; this is the model of JavaScript number
to string conversion for the counter values interpolated by the bot. -/
def natDigits (n : Nat) : List Char :=
  if n = 0 then ['0'] else natDigitsAux n n

/-- Decimal representation of a natural number as a string. -/
def natStr (n : Nat) : String := ⟨natDigits n⟩

/-- Embedding of JavaScript `String.prototype.trim` restricted to the
whitespace characters of `Char.isWhitespace`; every command keyword the
bot compares against is ASCII, where the two coincide. -/
def jsTrim (s : String) : String :=
  ⟨List.reverse (List.dropWhile Char.isWhitespace
     (List.reverse (List.dropWhile Char.isWhitespace s.data)))⟩

/-- Embedding of JavaScript `String.prototype.toLowerCase`, character by
character; `Char.toLower` lowers exactly the ASCII range, which covers
every command keyword the bot compares against. -/
def jsToLowerCase (s : String) : String := ⟨s.data.map Char.toLower⟩

/-- Embedding of JavaScript `String.prototype.toUpperCase`, character by
character, used by the caps-mode reply. -/
def jsToUpperCase (s : String) : String := ⟨s.data.map Char.toUpper⟩

/-- Model of a JSON value, as carried in HTTP request and response bodies. -/
inductive JVal where
  | null
  | bool (b : Bool)
  | num (n : Nat)
  | str (s : String)
  | arr (elems : List JVal)
  | obj (fields : List (String × JVal))

/-- Field access: `j.get k` models JavaScript property access `j.k` (and
`j?.k`, which agrees with it here because access on a non-object yields
`null` rather than throwing). -/
def JVal.get : JVal → String → JVal
  | .obj fields, key =>
      match fields.find? (fun kv => kv.1 == key) with
      | some kv => kv.2
      | none => .null
  | _, _ => .null

/-- JavaScript truthiness of a JSON value. -/
def JVal.truthy : JVal → Bool
  | .null => false
  | .bool b => b
  | .num n => n != 0
  | .str s => s != ""
  | .arr _ => true
  | .obj _ => true

mutual

/-- JavaScript string conversion of a JSON value, as performed by template
interpolation. -/
def JVal.render : JVal → String
  | .null => "null"
  | .bool b => cond b "true" "false"
  | .num n => natStr n
  | .str s => s
  | .arr xs => String.intercalate "," (JVal.renderList xs)
  | .obj _ => "[object Object]"

/-- String conversion of every element of a list of JSON values. -/
def JVal.renderList : List JVal → List String
  | [] => []
  | x :: xs => JVal.render x :: JVal.renderList xs

end

/-- Model of the JavaScript `x || y` idiom applied to a counter field:
the value itself when truthy, otherwise the number zero. -/
def orZero (j : JVal) : JVal := if j.truthy then j else .num 0

/-- An array-valued field read with the `x || []` idiom: a JSON array
yields its elements, anything else the empty list. -/
def arrOrEmpty (j : JVal) : List JVal :=
  match j with
  | .arr xs => xs
  | _ => []

/-- HTTP method of a request issued through axios. -/
inductive HttpMethod where
  | GET
  | POST
deriving DecidableEq, Repr

/-- Record of one HTTP request issued by the bot: endpoint path (with query
string), method, and optional JSON payload. -/
structure ApiCall where
  endpoint : String
  method : HttpMethod
  payload : Option JVal

/-- Outcome of the underlying axios transport: either a response body, or
an error carrying the (possibly absent) error response object and the
error message string. The error response object, when present, holds the
parsed body under its `data` field, mirroring the axios error shape. -/
inductive HttpOutcome where
  | ok (responseData : JVal)
  | err (response : JVal) (message : String)

/-- Result shape of `callCalendarAPI`: either success with the response
data or failure with an error value, never an exception. -/
inductive ApiResult where
  | success (data : JVal)
  | failure (error : JVal)

/-- Embedding of `callCalendarAPI` (main.ts lines 28 to 48). The whole
body runs inside try/catch: a transport-level success maps to
`success` with the response data, and any thrown error is caught and
mapped to `failure` whose error value is
`error.response?.data?.detail || error.message`. -/
def callCalendarAPI (endpoint : String) (method : HttpMethod) (data : Option JVal)
    (transport : String → HttpMethod → Option JVal → HttpOutcome) : ApiResult :=
  match transport endpoint method data with
  | .ok responseData => .success responseData
  | .err response message =>
      let detail := (response.get "data").get "detail"
      .failure (if detail.truthy then detail else .str message)

/-- Per-chat flag maps of the bot (main.ts lines 22 to 25): `activeAgents`
is the caps-mode flag map, `chatModeActive` the chat-mode flag map. A JS
`Map` holding only the value `true` is modelled as a Boolean-valued
function; `Map.get` on a missing key is falsy, i.e. `false` here. -/
structure BotState where
  activeAgents : String → Bool
  chatModeActive : String → Bool

/-- Model of `Map.set(key, true)`. -/
def mapSet (m : String → Bool) (key : String) : String → Bool :=
  fun k => if k = key then true else m k

/-- Model of `Map.delete(key)`. -/
def mapDelete (m : String → Bool) (key : String) : String → Bool :=
  fun k => if k = key then false else m k

/-- Incoming WhatsApp message: `fromMe`, chat identifier `message.from`
(called `sender` here), and text `message.body`. -/
structure Msg where
  fromMe : Bool
  sender : String
  body : String

/-- Observable effects of one handler invocation: texts sent with
`message.reply` in order, messages sent with `client.sendMessage`
(recipient and text), HTTP requests issued in order, and the bot state
after the invocation. -/
structure HandlerOutput where
  replies : List String
  sent : List (String × String)
  calls : List ApiCall
  state : BotState

/-- Embedding of `const messageText = message.body.trim().toLowerCase()`
(main.ts line 86). -/
def messageText (m : Msg) : String := jsToLowerCase (jsTrim m.body)

/-- Embedding of `getHelpMessage` (main.ts lines 51 to 76). -/
def getHelpMessage : String :=
  "🤖 *ALFREDO CALENDAR ASSISTANT*\n\n*Basic Commands:*\n• `alfredo activate` - Activate caps mode\n• `alfredo deactivate` - Deactivate caps mode\n• `!ping` - Test bot connection\n\n*Calendar Commands:*\n• `alfredo help` - Show this help\n• `alfredo health` - Check API health\n• `alfredo stats` - Get conversation stats\n• `alfredo notifications` - Get pending reminders\n• `alfredo clear` - Clear conversation history\n\n*Chat Mode:*\n• `alfredo chat` - Enter chat mode (talk directly to calendar assistant)\n• `alfredo exit` - Exit chat mode\n\n*In Chat Mode:*\nJust send your message naturally, like:\n• \"What\x27s on my calendar tomorrow?\"\n• \"Schedule a meeting with John on Friday at 2pm\"\n• \"Remind me to call Alex at 9am\"\n• \"List my events for next week\""

/-- Confirmation text sent when entering chat mode (main.ts line 141). -/
def chatModeWelcome : String :=
  "💬 *Chat mode activated!*\n\nNow you can talk directly to the calendar assistant. Send any message and I\x27ll relay it to the API.\n\nType `alfredo exit` to leave chat mode."

/-- Abstraction of `new Date(createdAt).toLocaleString()`: locale date
formatting is outside the embedding; the raw timestamp value is rendered
instead. No claim depends on this formatting. -/
def toLocaleString (createdAt : JVal) : String := createdAt.render

/-- Health reply rendering (main.ts lines 151 to 162). -/
def healthReply (health : JVal) : String :=
  "✅ *API Health Status*\n\n"
  ++ "• Started: " ++ (if (health.get "is_started").truthy then "✓" else "✗") ++ "\n"
  ++ "• Config Loaded: " ++ (if (health.get "config_loaded").truthy then "✓" else "✗") ++ "\n"
  ++ "\n*Conversation Stats:*\n"
  ++ "• Total messages: " ++ (orZero ((health.get "conversation_stats").get "total_messages")).render ++ "\n"
  ++ "• User messages: " ++ (orZero ((health.get "conversation_stats").get "user_messages")).render ++ "\n"
  ++ "• Pending actions: " ++ (orZero ((health.get "conversation_stats").get "pending_actions")).render ++ "\n"
  ++ "\n*Reminder Service:*\n"
  ++ "• Status: " ++ (if ((health.get "reminder_stats").get "is_started").truthy then "✓ Running" else "✗ Stopped") ++ "\n"
  ++ "• Sent reminders: " ++ (orZero (((health.get "reminder_stats").get "monitor").get "sent_reminders")).render ++ "\n"
  ++ "• Pending: " ++ (orZero (((health.get "reminder_stats").get "monitor").get "custom_reminders_pending")).render

/-- Stats reply rendering (main.ts lines 177 to 186). -/
def statsReply (stats : JVal) : String :=
  "📊 *Calendar Assistant Stats*\n\n"
  ++ "*Conversation:*\n"
  ++ "• Total: " ++ (orZero ((stats.get "conversation").get "total_messages")).render ++ " messages\n"
  ++ "• User: " ++ (orZero ((stats.get "conversation").get "user_messages")).render ++ "\n"
  ++ "• Assistant: " ++ (orZero ((stats.get "conversation").get "assistant_messages")).render ++ "\n"
  ++ "• Pending actions: " ++ (orZero ((stats.get "conversation").get "pending_actions")).render ++ "\n"
  ++ "\n*Reminders:*\n"
  ++ "• Sent: " ++ (orZero (((stats.get "reminders").get "monitor").get "sent_reminders")).render ++ "\n"
  ++ "• Pending: " ++ (orZero (((stats.get "reminders").get "monitor").get "custom_reminders_pending")).render ++ "\n"
  ++ "• Queue size: " ++ (orZero (((stats.get "reminders").get "dispatcher").get "queue_size")).render

/-- Notification list rendering (main.ts lines 204 to 208): one numbered
line per envelope with its message and creation timestamp. -/
def notificationsReply (notifications : List JVal) : String :=
  "🔔 *" ++ natStr notifications.length ++ " Notification(s)*\n\n"
  ++ String.join (notifications.enum.map (fun p =>
       natStr (p.1 + 1) ++ ". " ++ (p.2.get "message").render ++ "\n   _"
       ++ toLocaleString (p.2.get "created_at") ++ "_\n\n"))

/-- Embedding of the `message_create` handler (main.ts lines 79 to 241).
The axios transport is the oracle parameter `transport`; every branch of
the source is reproduced in order: the `fromMe` guard, the chat-mode
block with its exit keywords and the relay to POST /chat, then the
command chain (activate, deactivate, help, chat, health, stats,
notifications, clear), the caps-mode reply, and the `!ping` check. -/
def onMessageCreate (transport : String → HttpMethod → Option JVal → HttpOutcome)
    (s : BotState) (m : Msg) : HandlerOutput :=
  if m.fromMe then ⟨[], [], [], s⟩
  else
    let chatId := m.sender
    if s.chatModeActive chatId then
      if messageText m = "alfredo exit" ∨ messageText m = "exit" ∨ messageText m = "quit" then
        ⟨["👋 Exited chat mode. Use `alfredo help` for commands."], [], [],
         ⟨s.activeAgents, mapDelete s.chatModeActive chatId⟩⟩
      else
        match callCalendarAPI "/chat" .POST (some (.obj [("message", .str m.body)])) transport with
        | .success d =>
            let toolsUsed := arrOrEmpty (d.get "tools_used")
            let reply := (d.get "message").render ++
              (if toolsUsed.length > 0 then
                 "\n\n_Tools used: " ++ String.intercalate ", " (JVal.renderList toolsUsed) ++ "_"
               else "")
            ⟨[reply], [], [⟨"/chat", .POST, some (.obj [("message", .str m.body)])⟩], s⟩
        | .failure e =>
            ⟨["❌ Error: " ++ e.render], [], [⟨"/chat", .POST, some (.obj [("message", .str m.body)])⟩], s⟩
    else if messageText m = "alfredo activate" then
      ⟨["🤖 ALFREDO AGENT ACTIVATED! I WILL NOW RESPOND IN ALL CAPS!"], [], [],
       ⟨mapSet s.activeAgents chatId, s.chatModeActive⟩⟩
    else if messageText m = "alfredo deactivate" then
      ⟨["🤖 Alfredo agent deactivated. Back to normal mode."], [], [],
       ⟨mapDelete s.activeAgents chatId, s.chatModeActive⟩⟩
    else if messageText m = "alfredo help" ∨ messageText m = "h" then
      ⟨[getHelpMessage], [], [], s⟩
    else if messageText m = "alfredo chat" then
      ⟨[chatModeWelcome], [], [], ⟨s.activeAgents, mapSet s.chatModeActive chatId⟩⟩
    else if messageText m = "alfredo health" then
      match callCalendarAPI "/health" .GET none transport with
      | .success d =>
          ⟨["🔍 Checking API health...", healthReply d], [], [⟨"/health", .GET, none⟩], s⟩
      | .failure e =>
          ⟨["🔍 Checking API health...", "❌ Health check failed: " ++ e.render], [],
           [⟨"/health", .GET, none⟩], s⟩
    else if messageText m = "alfredo stats" then
      match callCalendarAPI "/stats" .GET none transport with
      | .success d =>
          ⟨["📊 Fetching stats...", statsReply d], [], [⟨"/stats", .GET, none⟩], s⟩
      | .failure e =>
          ⟨["📊 Fetching stats...", "❌ Failed to fetch stats: " ++ e.render], [],
           [⟨"/stats", .GET, none⟩], s⟩
    else if messageText m = "alfredo notifications" then
      match callCalendarAPI "/notifications?limit=10&flush=false" .GET none transport with
      | .success d =>
          let notifications := arrOrEmpty (d.get "notifications")
          if notifications.length = 0 then
            ⟨["🔔 Fetching notifications...", "📭 No notifications at the moment."], [],
             [⟨"/notifications?limit=10&flush=false", .GET, none⟩], s⟩
          else
            ⟨["🔔 Fetching notifications...", notificationsReply notifications], [],
             [⟨"/notifications?limit=10&flush=false", .GET, none⟩], s⟩
      | .failure e =>
          ⟨["🔔 Fetching notifications...", "❌ Failed to fetch notifications: " ++ e.render], [],
           [⟨"/notifications?limit=10&flush=false", .GET, none⟩], s⟩
    else if messageText m = "alfredo clear" then
      match callCalendarAPI "/conversation/clear" .POST none transport with
      | .success _ =>
          ⟨["🗑️ Clearing conversation history...", "✅ Conversation history cleared!"], [],
           [⟨"/conversation/clear", .POST, none⟩], s⟩
      | .failure e =>
          ⟨["🗑️ Clearing conversation history...", "❌ Failed to clear: " ++ e.render], [],
           [⟨"/conversation/clear", .POST, none⟩], s⟩
    else if s.activeAgents chatId then
      ⟨[jsToUpperCase m.body], [], [], s⟩
    else if m.body = "!ping" then
      ⟨[], [(m.sender, "pong")], [], s⟩
    else
      ⟨[], [], [], s⟩

/-- Modelled from the spec: a NotificationEnvelope is rendered message
text plus a creation timestamp (spec section 3). The server holding the
Notification Dispatcher is not under src; only the bot is. -/
structure NotificationEnvelope where
  message : String
  created_at : Nat
deriving DecidableEq, Repr

/-- Modelled from the spec: the Notification Dispatcher exposes a
drainable and peekable queue of envelopes, oldest first (spec section
4.4); the server implementing it is not under src. -/
structure Dispatcher where
  queue : List NotificationEnvelope
deriving DecidableEq, Repr

/-- Modelled from the spec: `peek(limit)` returns the oldest `limit`
envelopes and does not remove them. -/
def Dispatcher.peek (d : Dispatcher) (limit : Nat) : List NotificationEnvelope :=
  d.queue.take limit

/-- Modelled from the spec: `drain(limit)` returns the oldest `limit`
envelopes and removes them from the queue. -/
def Dispatcher.drain (d : Dispatcher) (limit : Nat) :
    List NotificationEnvelope × Dispatcher :=
  (d.queue.take limit, ⟨d.queue.drop limit⟩)

/-- Modelled from the spec: `enqueue(envelope)` appends to the queue. -/
def Dispatcher.enqueue (d : Dispatcher) (e : NotificationEnvelope) : Dispatcher :=
  ⟨d.queue ++ [e]⟩

/-- Modelled from the spec: the GET /notifications endpoint of the
missing server serves a drain when `flush` is true and a peek when it is
false, returning the served envelopes and the queue afterwards. -/
def serveNotifications (d : Dispatcher) (limit : Nat) (flush : Bool) :
    List NotificationEnvelope × Dispatcher :=
  if flush then d.drain limit else (d.peek limit, d)

/-- Splitting of a character list at every occurrence of a separator
character. -/
def splitOnChar (sep : Char) : List Char → List (List Char)
  | [] => [[]]
  | c :: cs =>
      match splitOnChar sep cs, decide (c = sep) with
      | rest, true => [] :: rest
      | [], false => [[c]]
      | r :: rs, false => (c :: r) :: rs

/-- Decimal parsing of a nonempty all-digit character list. -/
def decNat? (l : List Char) : Option Nat :=
  if l ≠ [] ∧ l.all Char.isDigit then
    some (l.foldl (fun acc c => 10 * acc + (c.toNat - 48)) 0)
  else none

/-- Modelled from the spec: query-string parsing of the missing server
for GET /notifications, recovering the `limit` and `flush` parameters
from the endpoint string the bot constructs. -/
def parseNotificationsQuery (endpoint : String) : Option (Nat × Bool) :=
  match splitOnChar '?' endpoint.data with
  | [path, query] =>
      if path = ("/notifications" : String).data then
        let params := (splitOnChar '&' query).map (splitOnChar '=')
        match params.find? (fun kv => kv.headD [] == ("limit" : String).data),
              params.find? (fun kv => kv.headD [] == ("flush" : String).data) with
        | some [_, v1], some [_, v2] =>
            match decNat? v1 with
            | some n => some (n, v2 == ("true" : String).data)
            | none => none
        | _, _ => none
      else none
  | _ => none

/-- Modelled from the spec: the server state relevant to a session clear.
The Conversation State Store holds messages and pending actions; the
Reminder Scheduler holds per-event sent-reminder records keyed by event
and offset (spec sections 4.1, 4.3, 5). The server is not under src. -/
structure ServerState where
  messages : List String
  pendingActions : List String
  sentReminderRecords : List (String × Nat)
deriving DecidableEq, Repr

/-- Modelled from the spec: `clear()` drops all messages and all pending
actions, used for session reset, without touching the Reminder
Scheduler state (spec sections 4.1 and 5); this is the operation behind
POST /conversation/clear of the missing server. -/
def clearConversation (st : ServerState) : ServerState :=
  ⟨[], [], st.sentReminderRecords⟩

/-- Events of one chat-mode turn of the handler, in program order. A turn
`i` of the `message_create` handler (main.ts lines 89 to 116) first runs
its synchronous part (the `fromMe` guard, flag reads), then starts the
awaited HTTP request of `callCalendarAPI`, later resumes when the
request completes, and finally commits by sending its reply. -/
inductive TurnEv where
  | recv (i : Nat)
  | apiStart (i : Nat)
  | apiEnd (i : Nat)
  | replySent (i : Nat)
deriving DecidableEq, Repr

/-- Program-order event sequence of chat-mode turn `i`. -/
def chatTurnTrace (i : Nat) : List TurnEv :=
  [.recv i, .apiStart i, .apiEnd i, .replySent i]

/-- Interleavings of two event sequences. The handler is an `async`
callback registered with `client.on`, and the source contains no
per-chat queue, mutex or serialization: between the `await` points of
one invocation the JavaScript event loop may run segments of another,
so the schedules the bot admits for two turns are exactly the merges of
the two program-order traces that keep each trace in order. -/
inductive Merge : List TurnEv → List TurnEv → List TurnEv → Prop where
  | nil : Merge [] [] []
  | left {x : TurnEv} {as bs t : List TurnEv} :
      Merge as bs t → Merge (x :: as) bs (x :: t)
  | right {x : TurnEv} {as bs t : List TurnEv} :
      Merge as bs t → Merge as (x :: bs) (x :: t)

/-- Value of a most-significant-first digit character list, used to show
that the decimal rendering of the counters is lossless. -/
def digitsVal : List Char → Nat
  | [] => 0
  | c :: cs => (c.toNat - 48) * 10 ^ cs.length + digitsVal cs

/-- Maximal runs of digit characters in a character list, in order; the
counter values of a rendered stats or health reply are exactly its digit
runs. -/
def digitRuns : List Char → List (List Char)
  | [] => []
  | c :: cs =>
    if c.isDigit then
      (c :: cs.takeWhile Char.isDigit) :: digitRuns (cs.dropWhile Char.isDigit)
    else
      digitRuns cs
termination_by l => l.length
decreasing_by
  · exact Nat.lt_succ_of_le ((List.dropWhile_sublist _).length_le)
  · simp

/-- Check that no character of a list is a decimal digit. -/
def allNonDigit (l : List Char) : Bool := l.all (fun c => !c.isDigit)

/-- Check that a list does not start with a decimal digit. -/
def headNonDigit (l : List Char) : Bool :=
  match l with
  | [] => true
  | c :: _ => !c.isDigit

/-- Command texts recognized by the handler outside chat mode, in source
order (main.ts lines 119 to 228). -/
def commandTexts : List String :=
  ["alfredo activate", "alfredo deactivate", "alfredo help", "h", "alfredo chat",
   "alfredo health", "alfredo stats", "alfredo notifications", "alfredo clear"]

/-- Transport fixture answering every request with the same response
body. -/
def okTransport (d : JVal) : String → HttpMethod → Option JVal → HttpOutcome :=
  fun _ _ _ => .ok d

/-- Transport fixture failing every request with the given error response
object and message. -/
def errTransport (resp : JVal) (msg : String) :
    String → HttpMethod → Option JVal → HttpOutcome :=
  fun _ _ _ => .err resp msg

/-- Bot state with no flag set. -/
def noFlags : BotState := ⟨fun _ => false, fun _ => false⟩

/-- Bot state with chat mode active for exactly one chat. -/
def chatOn (c : String) : BotState := ⟨fun _ => false, fun k => k == c⟩

/-- Bot state with caps mode active for exactly one chat. -/
def capsOn (c : String) : BotState := ⟨fun k => k == c, fun _ => false⟩

/-- Stats response fixture with all seven counters present. -/
def statsFixture : JVal :=
  .obj [("conversation", .obj [("total_messages", .num 12), ("user_messages", .num 7),
          ("assistant_messages", .num 5), ("pending_actions", .num 3)]),
        ("reminders", .obj [("monitor", .obj [("sent_reminders", .num 4),
          ("custom_reminders_pending", .num 2)]),
          ("dispatcher", .obj [("queue_size", .num 9)])])]

/-- Chat response fixture with a reply text and one tool. -/
def chatFixture : JVal :=
  .obj [("message", .str "Created event"), ("tools_used", .arr [.str "create_event"])]

/-- Every digit character produced by `digitChar` satisfies
`Char.isDigit`. -/
theorem digitChar_isDigit (d : Nat) : (digitChar d).isDigit = true := by
  rcases d with _|_|_|_|_|_|_|_|_|d <;> first | decide | (show ('9').isDigit = true; decide)

/-- Code point of a digit character below ten. -/
theorem digitChar_toNat (d : Nat) (h : d < 10) : (digitChar d).toNat = 48 + d := by
  interval_cases d <;> decide

theorem digitsVal_append_singleton (l : List Char) (c : Char) :
    digitsVal (l ++ [c]) = 10 * digitsVal l + (c.toNat - 48) := by
  induction l with
  | nil => simp [digitsVal]
  | cons x xs ih =>
      rw [List.cons_append, digitsVal, digitsVal, ih, List.length_append]
      simp only [List.length_cons, List.length_nil, Nat.zero_add, pow_succ]
      ring

theorem digitsVal_natDigitsAux (fuel n : Nat) (h : n ≤ fuel) :
    digitsVal (natDigitsAux fuel n) = n := by
  induction fuel generalizing n with
  | zero => interval_cases n; simp [natDigitsAux, digitsVal]
  | succ f ih =>
      by_cases h0 : n = 0
      · simp [natDigitsAux, h0, digitsVal]
      · have hdiv : n / 10 < n := Nat.div_lt_self (Nat.pos_of_ne_zero h0) (by norm_num)
        rw [natDigitsAux, if_neg h0, digitsVal_append_singleton,
          ih (n / 10) (by omega), digitChar_toNat (n % 10) (Nat.mod_lt n (by norm_num))]
        omega

/-- Decoding a rendered number recovers it: `digitsVal` inverts
`natDigits`. -/
theorem digitsVal_natDigits (n : Nat) : digitsVal (natDigits n) = n := by
  by_cases h : n = 0
  · simp [natDigits, h, digitsVal]
  · rw [natDigits, if_neg h]; exact digitsVal_natDigitsAux n n le_rfl

/-- Distinct numbers render to distinct digit lists. -/
theorem natDigits_injective : Function.Injective natDigits := by
  intro m n h
  have h2 := congrArg digitsVal h
  rwa [digitsVal_natDigits, digitsVal_natDigits] at h2

theorem natDigitsAux_all_isDigit (fuel n : Nat) :
    (natDigitsAux fuel n).all Char.isDigit = true := by
  induction fuel generalizing n with
  | zero => simp [natDigitsAux]
  | succ f ih =>
      by_cases h0 : n = 0
      · simp [natDigitsAux, h0]
      · rw [natDigitsAux, if_neg h0]
        simp [List.all_append, ih, digitChar_isDigit]

theorem natDigits_all_isDigit (n : Nat) : (natDigits n).all Char.isDigit = true := by
  by_cases h : n = 0
  · simp [natDigits, h]
  · rw [natDigits, if_neg h]; exact natDigitsAux_all_isDigit n n

theorem natDigits_ne_nil (n : Nat) : natDigits n ≠ [] := by
  by_cases h : n = 0
  · simp [natDigits, h]
  · rw [natDigits, if_neg h]
    cases n with
    | zero => exact absurd rfl h
    | succ k => rw [natDigitsAux, if_neg h]; simp

theorem digitRuns_nondigit_append (s r : List Char) (h : allNonDigit s = true) :
    digitRuns (s ++ r) = digitRuns r := by
  induction s with
  | nil => rfl
  | cons c cs ih =>
      simp only [allNonDigit, List.all_cons, Bool.and_eq_true, Bool.not_eq_eq_eq_not,
        Bool.not_true] at h
      rw [List.cons_append, digitRuns, if_neg (by simp [h.1])]
      exact ih (by simp [allNonDigit, h.2])

theorem takeWhile_digits_append (d r : List Char) (hd : d.all Char.isDigit = true)
    (hr : headNonDigit r = true) :
    (d ++ r).takeWhile Char.isDigit = d ∧ (d ++ r).dropWhile Char.isDigit = r := by
  induction d with
  | nil =>
      cases r with
      | nil => exact ⟨rfl, rfl⟩
      | cons c cs =>
          simp only [headNonDigit, Bool.not_eq_eq_eq_not, Bool.not_true] at hr
          simp [List.takeWhile, List.dropWhile, hr]
  | cons x xs ih =>
      simp only [List.all_cons, Bool.and_eq_true] at hd
      have h2 := ih hd.2
      simp [List.takeWhile, List.dropWhile, hd.1, h2.1, h2.2]

theorem digitRuns_digits_append (d r : List Char) (hd : d.all Char.isDigit = true)
    (hne : d ≠ []) (hr : headNonDigit r = true) :
    digitRuns (d ++ r) = d :: digitRuns r := by
  cases d with
  | nil => exact absurd rfl hne
  | cons c cs =>
      simp only [List.all_cons, Bool.and_eq_true] at hd
      rw [List.cons_append, digitRuns, if_pos hd.1]
      have h := takeWhile_digits_append cs r hd.2 hr
      rw [h.1, h.2]

theorem headNonDigit_append (s r : List Char) (h : headNonDigit s = true) (hne : s ≠ []) :
    headNonDigit (s ++ r) = true := by
  cases s with
  | nil => exact absurd rfl hne
  | cons c cs => exact h

theorem digitRuns_digits (dg : List Char) (hd : dg.all Char.isDigit = true) (hne : dg ≠ []) :
    digitRuns dg = [dg] := by
  have h := digitRuns_digits_append dg [] hd hne rfl
  simpa [digitRuns] using h

/-- Rendering a present numeric counter field through the `x || 0` idiom
yields exactly its decimal representation. -/
theorem orZero_num_render (n : Nat) : (orZero (JVal.num n)).render = natStr n := by
  by_cases h : n = 0 <;> simp [orZero, JVal.truthy, JVal.render, h]

theorem natStr_data (n : Nat) : (natStr n).data = natDigits n := rfl

theorem allNonDigit_ite (c : Prop) [Decidable c] (x y : String)
    (hx : allNonDigit x.data = true) (hy : allNonDigit y.data = true) :
    allNonDigit (if c then x else y).data = true := by
  split <;> assumption

/-- Digit runs of a rendered stats reply are exactly the decimal
representations of the seven counters of the response, in display
order. -/
theorem digitRuns_statsReply (d : JVal) (tm um am pa sr cp qs : Nat)
    (h1 : (d.get "conversation").get "total_messages" = .num tm)
    (h2 : (d.get "conversation").get "user_messages" = .num um)
    (h3 : (d.get "conversation").get "assistant_messages" = .num am)
    (h4 : (d.get "conversation").get "pending_actions" = .num pa)
    (h5 : ((d.get "reminders").get "monitor").get "sent_reminders" = .num sr)
    (h6 : ((d.get "reminders").get "monitor").get "custom_reminders_pending" = .num cp)
    (h7 : ((d.get "reminders").get "dispatcher").get "queue_size" = .num qs) :
    digitRuns (statsReply d).data =
      [natDigits tm, natDigits um, natDigits am, natDigits pa,
       natDigits sr, natDigits cp, natDigits qs] := by
  have a1 : allNonDigit ("📊 *Calendar Assistant Stats*\n\n" : String).data = true := by decide
  have a2 : allNonDigit ("*Conversation:*\n" : String).data = true := by decide
  have a3 : allNonDigit ("• Total: " : String).data = true := by decide
  have a4 : allNonDigit (" messages\n" : String).data = true := by decide
  have a5 : allNonDigit ("• User: " : String).data = true := by decide
  have a6 : allNonDigit ("\n" : String).data = true := by decide
  have a7 : allNonDigit ("• Assistant: " : String).data = true := by decide
  have a8 : allNonDigit ("• Pending actions: " : String).data = true := by decide
  have a9 : allNonDigit ("\n*Reminders:*\n" : String).data = true := by decide
  have a10 : allNonDigit ("• Sent: " : String).data = true := by decide
  have a11 : allNonDigit ("• Pending: " : String).data = true := by decide
  have a12 : allNonDigit ("• Queue size: " : String).data = true := by decide
  have b1 : headNonDigit (" messages\n" : String).data = true := by decide
  have b2 : headNonDigit ("\n" : String).data = true := by decide
  have c1 : (" messages\n" : String).data ≠ [] := by decide
  have c2 : ("\n" : String).data ≠ [] := by decide
  rw [statsReply, h1, h2, h3, h4, h5, h6, h7]
  simp only [orZero_num_render, String.data_append, natStr_data, List.append_assoc]
  rw [digitRuns_nondigit_append _ _ a1, digitRuns_nondigit_append _ _ a2,
    digitRuns_nondigit_append _ _ a3,
    digitRuns_digits_append _ _ (natDigits_all_isDigit tm) (natDigits_ne_nil tm)
      (headNonDigit_append _ _ b1 c1),
    digitRuns_nondigit_append _ _ a4, digitRuns_nondigit_append _ _ a5,
    digitRuns_digits_append _ _ (natDigits_all_isDigit um) (natDigits_ne_nil um)
      (headNonDigit_append _ _ b2 c2),
    digitRuns_nondigit_append _ _ a6, digitRuns_nondigit_append _ _ a7,
    digitRuns_digits_append _ _ (natDigits_all_isDigit am) (natDigits_ne_nil am)
      (headNonDigit_append _ _ b2 c2),
    digitRuns_nondigit_append _ _ a6, digitRuns_nondigit_append _ _ a8,
    digitRuns_digits_append _ _ (natDigits_all_isDigit pa) (natDigits_ne_nil pa)
      (headNonDigit_append _ _ b2 c2),
    digitRuns_nondigit_append _ _ a6, digitRuns_nondigit_append _ _ a9,
    digitRuns_nondigit_append _ _ a10,
    digitRuns_digits_append _ _ (natDigits_all_isDigit sr) (natDigits_ne_nil sr)
      (headNonDigit_append _ _ b2 c2),
    digitRuns_nondigit_append _ _ a6, digitRuns_nondigit_append _ _ a11,
    digitRuns_digits_append _ _ (natDigits_all_isDigit cp) (natDigits_ne_nil cp)
      (headNonDigit_append _ _ b2 c2),
    digitRuns_nondigit_append _ _ a6, digitRuns_nondigit_append _ _ a12,
    digitRuns_digits _ (natDigits_all_isDigit qs) (natDigits_ne_nil qs)]

/-- Digit runs of a rendered health reply are exactly the decimal
representations of the five counters of the response, in display order,
whatever the Boolean status fields are. -/
theorem digitRuns_healthReply (d : JVal) (tm um pa sr cp : Nat)
    (h1 : (d.get "conversation_stats").get "total_messages" = .num tm)
    (h2 : (d.get "conversation_stats").get "user_messages" = .num um)
    (h3 : (d.get "conversation_stats").get "pending_actions" = .num pa)
    (h4 : ((d.get "reminder_stats").get "monitor").get "sent_reminders" = .num sr)
    (h5 : ((d.get "reminder_stats").get "monitor").get "custom_reminders_pending" = .num cp) :
    digitRuns (healthReply d).data =
      [natDigits tm, natDigits um, natDigits pa, natDigits sr, natDigits cp] := by
  have a1 : allNonDigit ("✅ *API Health Status*\n\n" : String).data = true := by decide
  have a2 : allNonDigit ("• Started: " : String).data = true := by decide
  have a3 : allNonDigit ("\n" : String).data = true := by decide
  have a4 : allNonDigit ("• Config Loaded: " : String).data = true := by decide
  have a5 : allNonDigit ("\n*Conversation Stats:*\n" : String).data = true := by decide
  have a6 : allNonDigit ("• Total messages: " : String).data = true := by decide
  have a7 : allNonDigit ("• User messages: " : String).data = true := by decide
  have a8 : allNonDigit ("• Pending actions: " : String).data = true := by decide
  have a9 : allNonDigit ("\n*Reminder Service:*\n" : String).data = true := by decide
  have a10 : allNonDigit ("• Status: " : String).data = true := by decide
  have a11 : allNonDigit ("• Sent reminders: " : String).data = true := by decide
  have a12 : allNonDigit ("• Pending: " : String).data = true := by decide
  have b2 : headNonDigit ("\n" : String).data = true := by decide
  have c2 : ("\n" : String).data ≠ [] := by decide
  have i1 : allNonDigit
      (if (d.get "is_started").truthy = true then ("✓" : String) else "✗").data = true :=
    allNonDigit_ite _ _ _ (by decide) (by decide)
  have i2 : allNonDigit
      (if (d.get "config_loaded").truthy = true then ("✓" : String) else "✗").data = true :=
    allNonDigit_ite _ _ _ (by decide) (by decide)
  have i3 : allNonDigit
      (if ((d.get "reminder_stats").get "is_started").truthy = true
       then ("✓ Running" : String) else "✗ Stopped").data = true :=
    allNonDigit_ite _ _ _ (by decide) (by decide)
  rw [healthReply, h1, h2, h3, h4, h5]
  simp only [orZero_num_render, String.data_append, natStr_data, List.append_assoc]
  rw [digitRuns_nondigit_append _ _ a1, digitRuns_nondigit_append _ _ a2,
    digitRuns_nondigit_append _ _ i1, digitRuns_nondigit_append _ _ a3,
    digitRuns_nondigit_append _ _ a4, digitRuns_nondigit_append _ _ i2,
    digitRuns_nondigit_append _ _ a3, digitRuns_nondigit_append _ _ a5,
    digitRuns_nondigit_append _ _ a6,
    digitRuns_digits_append _ _ (natDigits_all_isDigit tm) (natDigits_ne_nil tm)
      (headNonDigit_append _ _ b2 c2),
    digitRuns_nondigit_append _ _ a3, digitRuns_nondigit_append _ _ a7,
    digitRuns_digits_append _ _ (natDigits_all_isDigit um) (natDigits_ne_nil um)
      (headNonDigit_append _ _ b2 c2),
    digitRuns_nondigit_append _ _ a3, digitRuns_nondigit_append _ _ a8,
    digitRuns_digits_append _ _ (natDigits_all_isDigit pa) (natDigits_ne_nil pa)
      (headNonDigit_append _ _ b2 c2),
    digitRuns_nondigit_append _ _ a3, digitRuns_nondigit_append _ _ a9,
    digitRuns_nondigit_append _ _ a10, digitRuns_nondigit_append _ _ i3,
    digitRuns_nondigit_append _ _ a3, digitRuns_nondigit_append _ _ a11,
    digitRuns_digits_append _ _ (natDigits_all_isDigit sr) (natDigits_ne_nil sr)
      (headNonDigit_append _ _ b2 c2),
    digitRuns_nondigit_append _ _ a3, digitRuns_nondigit_append _ _ a12,
    digitRuns_digits _ (natDigits_all_isDigit cp) (natDigits_ne_nil cp)]

/-- A merge keeps the first trace in order. -/
theorem Merge.sublist_left {as bs t : List TurnEv} (h : Merge as bs t) : as.Sublist t := by
  induction h with
  | nil => exact List.Sublist.refl []
  | left _ ih => exact ih.cons₂ _
  | right _ ih => exact ih.cons _

/-- A merge keeps the second trace in order. -/
theorem Merge.sublist_right {as bs t : List TurnEv} (h : Merge as bs t) : bs.Sublist t := by
  induction h with
  | nil => exact List.Sublist.refl []
  | left _ ih => exact ih.cons _
  | right _ ih => exact ih.cons₂ _

/-- A merge neither loses nor duplicates events. -/
theorem Merge.perm {as bs t : List TurnEv} (h : Merge as bs t) : t.Perm (as ++ bs) := by
  induction h with
  | nil => exact List.Perm.refl []
  | left _ ih => exact ih.cons _
  | right _ ih => exact (ih.cons _).trans List.perm_middle.symm

/-- Schedule in which the second turn overtakes the first while the first
is suspended on its HTTP request: admissible, because the handler holds
no per-chat lock across its `await` points. -/
theorem merge_overtake : Merge (chatTurnTrace 1) (chatTurnTrace 2)
    [.recv 1, .apiStart 1, .recv 2, .apiStart 2, .apiEnd 2, .replySent 2,
     .apiEnd 1, .replySent 1] :=
  .left (.left (.right (.right (.right (.right (.left (.left .nil)))))))

/-- Fully sequential schedule of two turns. -/
theorem merge_sequential : Merge (chatTurnTrace 1) (chatTurnTrace 2)
    (chatTurnTrace 1 ++ chatTurnTrace 2) :=
  .left (.left (.left (.left (.right (.right (.right (.right .nil)))))))

/-- Flag entries of chats other than the sender are never written by the
handler. -/
theorem state_frame (t : String → HttpMethod → Option JVal → HttpOutcome) (s : BotState)
    (m : Msg) (c : String) (hc : c ≠ m.sender) :
    (onMessageCreate t s m).state.activeAgents c = s.activeAgents c ∧
    (onMessageCreate t s m).state.chatModeActive c = s.chatModeActive c := by
  by_cases hm : m.fromMe = true
  · simp [onMessageCreate, hm]
  · by_cases hcm : s.chatModeActive m.sender = true
    · by_cases hex : (messageText m = "alfredo exit" ∨ messageText m = "exit"
          ∨ messageText m = "quit")
      · simp [onMessageCreate, hm, hcm, hex, mapDelete, hc]
      · rcases hcall : callCalendarAPI "/chat" .POST (some (.obj [("message", .str m.body)])) t
          with d | e <;> simp [onMessageCreate, hm, hcm, hex, hcall]
    · by_cases e1 : messageText m = "alfredo activate"
      · simp [onMessageCreate, hm, hcm, e1, mapSet, hc]
      · by_cases e2 : messageText m = "alfredo deactivate"
        · simp [onMessageCreate, hm, hcm, e1, e2, mapDelete, hc]
        · by_cases e3 : (messageText m = "alfredo help" ∨ messageText m = "h")
          · simp [onMessageCreate, hm, hcm, e1, e2, e3]
          · by_cases e4 : messageText m = "alfredo chat"
            · simp [onMessageCreate, hm, hcm, e1, e2, e3, e4, mapSet, hc]
            · by_cases e5 : messageText m = "alfredo health"
              · rcases hcall : callCalendarAPI "/health" .GET none t with d | e <;>
                  simp [onMessageCreate, hm, hcm, e1, e2, e3, e4, e5, hcall]
              · by_cases e6 : messageText m = "alfredo stats"
                · rcases hcall : callCalendarAPI "/stats" .GET none t with d | e <;>
                    simp [onMessageCreate, hm, hcm, e1, e2, e3, e4, e5, e6, hcall]
                · by_cases e7 : messageText m = "alfredo notifications"
                  · rcases hcall : callCalendarAPI "/notifications?limit=10&flush=false" .GET
                        none t with d | e
                    · by_cases hn : (arrOrEmpty (d.get "notifications")).length = 0 <;>
                        simp [onMessageCreate, hm, hcm, e1, e2, e3, e4, e5, e6, e7, hcall, hn]
                    · simp [onMessageCreate, hm, hcm, e1, e2, e3, e4, e5, e6, e7, hcall]
                  · by_cases e8 : messageText m = "alfredo clear"
                    · rcases hcall : callCalendarAPI "/conversation/clear" .POST none t
                        with d | e <;>
                        simp [onMessageCreate, hm, hcm, e1, e2, e3, e4, e5, e6, e7, e8, hcall]
                    · by_cases e9 : s.activeAgents m.sender = true
                      · simp [onMessageCreate, hm, hcm, e1, e2, e3, e4, e5, e6, e7, e8, e9]
                      · by_cases e10 : m.body = "!ping" <;>
                          simp [onMessageCreate, hm, hcm, e1, e2, e3, e4, e5, e6, e7, e8, e9,
                            e10]

/-- Observable outputs of the handler, and the flag entries of the sender
after it, depend on the pre-state only through the two flag entries of
the sender. -/
theorem obs_agree (t : String → HttpMethod → Option JVal → HttpOutcome) (s1 s2 : BotState)
    (m : Msg)
    (hA : s1.activeAgents m.sender = s2.activeAgents m.sender)
    (hC : s1.chatModeActive m.sender = s2.chatModeActive m.sender) :
    (onMessageCreate t s1 m).replies = (onMessageCreate t s2 m).replies ∧
    (onMessageCreate t s1 m).sent = (onMessageCreate t s2 m).sent ∧
    (onMessageCreate t s1 m).calls = (onMessageCreate t s2 m).calls ∧
    (onMessageCreate t s1 m).state.activeAgents m.sender
      = (onMessageCreate t s2 m).state.activeAgents m.sender ∧
    (onMessageCreate t s1 m).state.chatModeActive m.sender
      = (onMessageCreate t s2 m).state.chatModeActive m.sender := by
  by_cases hm : m.fromMe = true
  · simp [onMessageCreate, hm, hA, hC]
  · by_cases hcm : s2.chatModeActive m.sender = true
    · have hcm1 : s1.chatModeActive m.sender = true := by rw [hC]; exact hcm
      by_cases hex : (messageText m = "alfredo exit" ∨ messageText m = "exit"
          ∨ messageText m = "quit")
      · simp [onMessageCreate, hm, hcm, hcm1, hex, mapDelete, hA, hC]
      · rcases hcall : callCalendarAPI "/chat" .POST (some (.obj [("message", .str m.body)])) t
          with d | e <;> simp [onMessageCreate, hm, hcm, hcm1, hex, hcall, hA, hC]
    · have hcm1 : ¬ s1.chatModeActive m.sender = true := by rw [hC]; exact hcm
      by_cases e1 : messageText m = "alfredo activate"
      · simp [onMessageCreate, hm, hcm, hcm1, e1, mapSet, hA, hC]
      · by_cases e2 : messageText m = "alfredo deactivate"
        · simp [onMessageCreate, hm, hcm, hcm1, e1, e2, mapDelete, hA, hC]
        · by_cases e3 : (messageText m = "alfredo help" ∨ messageText m = "h")
          · simp [onMessageCreate, hm, hcm, hcm1, e1, e2, e3, hA, hC]
          · by_cases e4 : messageText m = "alfredo chat"
            · simp [onMessageCreate, hm, hcm, hcm1, e1, e2, e3, e4, mapSet, hA, hC]
            · by_cases e5 : messageText m = "alfredo health"
              · rcases hcall : callCalendarAPI "/health" .GET none t with d | e <;>
                  simp [onMessageCreate, hm, hcm, hcm1, e1, e2, e3, e4, e5, hcall, hA, hC]
              · by_cases e6 : messageText m = "alfredo stats"
                · rcases hcall : callCalendarAPI "/stats" .GET none t with d | e <;>
                    simp [onMessageCreate, hm, hcm, hcm1, e1, e2, e3, e4, e5, e6, hcall, hA, hC]
                · by_cases e7 : messageText m = "alfredo notifications"
                  · rcases hcall : callCalendarAPI "/notifications?limit=10&flush=false" .GET
                        none t with d | e
                    · by_cases hn : (arrOrEmpty (d.get "notifications")).length = 0 <;>
                        simp [onMessageCreate, hm, hcm, hcm1, e1, e2, e3, e4, e5, e6, e7,
                          hcall, hn, hA, hC]
                    · simp [onMessageCreate, hm, hcm, hcm1, e1, e2, e3, e4, e5, e6, e7,
                        hcall, hA, hC]
                  · by_cases e8 : messageText m = "alfredo clear"
                    · rcases hcall : callCalendarAPI "/conversation/clear" .POST none t
                        with d | e <;>
                        simp [onMessageCreate, hm, hcm, hcm1, e1, e2, e3, e4, e5, e6, e7, e8,
                          hcall, hA, hC]
                    · by_cases e9 : s2.activeAgents m.sender = true
                      · have e9b : s1.activeAgents m.sender = true := by rw [hA]; exact e9
                        simp [onMessageCreate, hm, hcm, hcm1, e1, e2, e3, e4, e5, e6, e7, e8,
                          e9, e9b, hA, hC]
                      · have e9b : ¬ s1.activeAgents m.sender = true := by rw [hA]; exact e9
                        by_cases e10 : m.body = "!ping" <;>
                          simp [onMessageCreate, hm, hcm, hcm1, e1, e2, e3, e4, e5, e6, e7, e8,
                            e9, e9b, e10, hA, hC]

/-- C1: `callCalendarAPI` never throws, for any endpoint, method, payload
and transport outcome it returns either success with data or failure
with an error; and a chat-mode turn that is relayed (not an exit
keyword) always produces exactly one reply, which on API failure is a
text carrying the failure reason. -/
theorem C1_api_errors_contained (t : String → HttpMethod → Option JVal → HttpOutcome)
    (s : BotState) (m : Msg)
    (h1 : m.fromMe = false) (h2 : s.chatModeActive m.sender = true)
    (h3 : ¬(messageText m = "alfredo exit" ∨ messageText m = "exit"
        ∨ messageText m = "quit")) :
    (∀ endpoint method data,
       (∃ d, callCalendarAPI endpoint method data t = .success d) ∨
       (∃ e, callCalendarAPI endpoint method data t = .failure e)) ∧
    (onMessageCreate t s m).replies.length = 1 ∧
    (∀ e, callCalendarAPI "/chat" .POST (some (.obj [("message", .str m.body)])) t
        = .failure e →
       (onMessageCreate t s m).replies = ["❌ Error: " ++ e.render]) := by
  refine ⟨?_, ?_, ?_⟩
  · intro ep mth dd
    cases h : t ep mth dd with
    | ok d => exact .inl ⟨d, by simp [callCalendarAPI, h]⟩
    | err r msg =>
        exact .inr ⟨(if ((r.get "data").get "detail").truthy then (r.get "data").get "detail"
          else .str msg), by simp [callCalendarAPI, h]⟩
  · rcases hc : callCalendarAPI "/chat" .POST (some (.obj [("message", .str m.body)])) t with
      d | e <;> simp [onMessageCreate, h1, h2, h3, hc]
  · intro e he
    simp [onMessageCreate, h1, h2, h3, he]

theorem C1_witness :
    (onMessageCreate (errTransport .null "boom") (chatOn "c1")
       ⟨false, "c1", "hello"⟩).replies = ["❌ Error: boom"] := by
  have h := C1_api_errors_contained (errTransport .null "boom") (chatOn "c1")
    ⟨false, "c1", "hello"⟩ rfl rfl (by decide)
  have h2 := h.2.2 (.str "boom") rfl
  rw [h2]; decide

/-- C2: a chat-mode message that is not an exit keyword is forwarded with
its original body as the JSON payload of POST /chat, and the reply is
exactly the returned message text, with the tools footer appended
exactly when the returned tools_used list is non-empty. -/
theorem C2_chat_relay_verbatim (t : String → HttpMethod → Option JVal → HttpOutcome)
    (s : BotState) (m : Msg) (d : JVal) (msg : String) (ts : List JVal)
    (h1 : m.fromMe = false) (h2 : s.chatModeActive m.sender = true)
    (h3 : ¬(messageText m = "alfredo exit" ∨ messageText m = "exit"
        ∨ messageText m = "quit"))
    (h4 : callCalendarAPI "/chat" .POST (some (.obj [("message", .str m.body)])) t
        = .success d)
    (h5 : d.get "message" = .str msg)
    (h6 : d.get "tools_used" = .arr ts) :
    (onMessageCreate t s m).calls =
      [⟨"/chat", .POST, some (.obj [("message", .str m.body)])⟩] ∧
    (onMessageCreate t s m).replies =
      [msg ++ (if ts.length > 0 then
         "\n\n_Tools used: " ++ String.intercalate ", " (JVal.renderList ts) ++ "_"
       else "")] := by
  constructor
  · simp [onMessageCreate, h1, h2, h3, h4]
  · simp [onMessageCreate, h1, h2, h3, h4, h5, h6, arrOrEmpty, JVal.render]

theorem C2_witness :
    (onMessageCreate (okTransport chatFixture) (chatOn "c2")
       ⟨false, "c2", "schedule a meeting"⟩).calls =
      [⟨"/chat", .POST, some (.obj [("message", .str "schedule a meeting")])⟩] ∧
    (onMessageCreate (okTransport chatFixture) (chatOn "c2")
       ⟨false, "c2", "schedule a meeting"⟩).replies =
      ["Created event\n\n_Tools used: create_event_"] := by
  have h := C2_chat_relay_verbatim (okTransport chatFixture) (chatOn "c2")
    ⟨false, "c2", "schedule a meeting"⟩ chatFixture "Created event" [.str "create_event"]
    rfl rfl (by decide) rfl rfl rfl
  exact ⟨h.1, by rw [h.2]; decide⟩

/-- C3: the notifications command issues exactly the GET request with
flush set to false, and by the spec-modelled dispatcher semantics a
flush=false request is a peek that leaves the queue unchanged. -/
theorem C3_notifications_peek (t : String → HttpMethod → Option JVal → HttpOutcome)
    (s : BotState) (m : Msg)
    (h1 : m.fromMe = false) (h2 : s.chatModeActive m.sender = false)
    (h3 : messageText m = "alfredo notifications") :
    (onMessageCreate t s m).calls = [⟨"/notifications?limit=10&flush=false", .GET, none⟩] ∧
    parseNotificationsQuery "/notifications?limit=10&flush=false" = some (10, false) ∧
    (∀ d : Dispatcher, (serveNotifications d 10 false).2 = d ∧
       (serveNotifications d 10 false).1 = d.peek 10) := by
  refine ⟨?_, by decide, fun d => by simp [serveNotifications]⟩
  rcases hc : callCalendarAPI "/notifications?limit=10&flush=false" .GET none t with dd | e
  · by_cases hn : (arrOrEmpty (dd.get "notifications")).length = 0 <;>
      simp [onMessageCreate, h1, h2, h3, hc, hn]
  · simp [onMessageCreate, h1, h2, h3, hc]

theorem C3_witness :
    (onMessageCreate (okTransport (.obj [("notifications", .arr [])])) noFlags
       ⟨false, "c3", "alfredo notifications"⟩).calls =
      [⟨"/notifications?limit=10&flush=false", .GET, none⟩] ∧
    (serveNotifications ⟨[⟨"reminder", 5⟩]⟩ 10 false).2 = ⟨[⟨"reminder", 5⟩]⟩ := by
  have h := C3_notifications_peek (okTransport (.obj [("notifications", .arr [])])) noFlags
    ⟨false, "c3", "alfredo notifications"⟩ rfl rfl (by decide)
  exact ⟨h.1, (h.2.2 ⟨[⟨"reminder", 5⟩]⟩).1⟩

/-- C4: the clear command issues exactly one POST /conversation/clear and
leaves the bot state unchanged, and the spec-modelled clear operation
drops all messages and pending actions while leaving reminder-side
state untouched. -/
theorem C4_clear_frame (t : String → HttpMethod → Option JVal → HttpOutcome)
    (s : BotState) (m : Msg)
    (h1 : m.fromMe = false) (h2 : s.chatModeActive m.sender = false)
    (h3 : messageText m = "alfredo clear") :
    (onMessageCreate t s m).calls = [⟨"/conversation/clear", .POST, none⟩] ∧
    (onMessageCreate t s m).state = s ∧
    (∀ st : ServerState, (clearConversation st).messages = [] ∧
       (clearConversation st).pendingActions = [] ∧
       (clearConversation st).sentReminderRecords = st.sentReminderRecords) := by
  refine ⟨?_, ?_, fun st => ⟨rfl, rfl, rfl⟩⟩ <;>
    rcases hc : callCalendarAPI "/conversation/clear" .POST none t with dd | e <;>
      simp [onMessageCreate, h1, h2, h3, hc]

theorem C4_witness :
    (onMessageCreate (okTransport .null) (capsOn "c4") ⟨false, "c4", "alfredo clear"⟩).calls =
      [⟨"/conversation/clear", .POST, none⟩] ∧
    (onMessageCreate (okTransport .null) (capsOn "c4") ⟨false, "c4", "alfredo clear"⟩).state =
      capsOn "c4" ∧
    clearConversation ⟨["hello"], ["create_event"], [("ev1", 60)]⟩ =
      ⟨[], [], [("ev1", 60)]⟩ := by
  have h := C4_clear_frame (okTransport .null) (capsOn "c4") ⟨false, "c4", "alfredo clear"⟩
    rfl rfl (by decide)
  exact ⟨h.1, h.2.1, rfl⟩

/-- C5: on a successful stats or health response whose counter fields are
present, the rendered reply carries exactly the returned counters: the
digit runs of the reply are precisely their decimal representations in
display order, and decimal representation is injective, so the reply
determines the counters exactly. -/
theorem C5_counters_exact (t : String → HttpMethod → Option JVal → HttpOutcome)
    (s : BotState) (m : Msg) (d : JVal)
    (h1 : m.fromMe = false) (h2 : s.chatModeActive m.sender = false) :
    ((messageText m = "alfredo stats" →
      callCalendarAPI "/stats" .GET none t = .success d →
      ∀ tm um am pa sr cp qs : Nat,
      (d.get "conversation").get "total_messages" = .num tm →
      (d.get "conversation").get "user_messages" = .num um →
      (d.get "conversation").get "assistant_messages" = .num am →
      (d.get "conversation").get "pending_actions" = .num pa →
      ((d.get "reminders").get "monitor").get "sent_reminders" = .num sr →
      ((d.get "reminders").get "monitor").get "custom_reminders_pending" = .num cp →
      ((d.get "reminders").get "dispatcher").get "queue_size" = .num qs →
      (onMessageCreate t s m).replies = ["📊 Fetching stats...", statsReply d] ∧
      digitRuns (statsReply d).data =
        [natDigits tm, natDigits um, natDigits am, natDigits pa,
         natDigits sr, natDigits cp, natDigits qs]) ∧
     (messageText m = "alfredo health" →
      callCalendarAPI "/health" .GET none t = .success d →
      ∀ tm um pa sr cp : Nat,
      (d.get "conversation_stats").get "total_messages" = .num tm →
      (d.get "conversation_stats").get "user_messages" = .num um →
      (d.get "conversation_stats").get "pending_actions" = .num pa →
      ((d.get "reminder_stats").get "monitor").get "sent_reminders" = .num sr →
      ((d.get "reminder_stats").get "monitor").get "custom_reminders_pending" = .num cp →
      (onMessageCreate t s m).replies = ["🔍 Checking API health...", healthReply d] ∧
      digitRuns (healthReply d).data =
        [natDigits tm, natDigits um, natDigits pa, natDigits sr, natDigits cp])) ∧
    Function.Injective natDigits := by
  refine ⟨⟨?_, ?_⟩, natDigits_injective⟩
  · intro h3 h4 tm um am pa sr cp qs f1 f2 f3 f4 f5 f6 f7
    exact ⟨by simp [onMessageCreate, h1, h2, h3, h4],
      digitRuns_statsReply d tm um am pa sr cp qs f1 f2 f3 f4 f5 f6 f7⟩
  · intro h3 h4 tm um pa sr cp f1 f2 f3 f4 f5
    exact ⟨by simp [onMessageCreate, h1, h2, h3, h4],
      digitRuns_healthReply d tm um pa sr cp f1 f2 f3 f4 f5⟩

theorem C5_witness :
    (onMessageCreate (okTransport statsFixture) noFlags
       ⟨false, "c5", "alfredo stats"⟩).replies =
      ["📊 Fetching stats...", statsReply statsFixture] ∧
    digitRuns (statsReply statsFixture).data =
      [['1', '2'], ['7'], ['5'], ['3'], ['4'], ['2'], ['9']] := by
  have h := (C5_counters_exact (okTransport statsFixture) noFlags
    ⟨false, "c5", "alfredo stats"⟩ statsFixture rfl rfl).1.1 (by decide) rfl
    12 7 5 3 4 2 9 rfl rfl rfl rfl rfl rfl rfl
  exact ⟨h.1, by rw [h.2]; decide⟩

/-- C6 (amended): the bot does not serialize turns of one chat: there is
an admissible event-loop schedule in which the later message's API call
starts before the earlier turn's reply commits; what does hold in every
admissible schedule is that each turn's own events stay in program
order and no events are lost or duplicated. -/
theorem C6_turns_may_interleave (i j : Nat) (tr : List TurnEv)
    (h : Merge (chatTurnTrace i) (chatTurnTrace j) tr) :
    (chatTurnTrace i).Sublist tr ∧ (chatTurnTrace j).Sublist tr ∧
    tr.Perm (chatTurnTrace i ++ chatTurnTrace j) ∧
    (∃ tr2, Merge (chatTurnTrace 1) (chatTurnTrace 2) tr2 ∧
       tr2.indexOf (TurnEv.apiStart 2) < tr2.indexOf (TurnEv.replySent 1)) :=
  ⟨h.sublist_left, h.sublist_right, h.perm, ⟨_, merge_overtake, by decide⟩⟩

/-- C6 as stated is false: in the schedule of `merge_overtake`, turn 2
calls the API before turn 1 has replied. -/
theorem C6_counterexample :
    ¬ (∀ tr : List TurnEv, Merge (chatTurnTrace 1) (chatTurnTrace 2) tr →
        tr.indexOf (TurnEv.replySent 1) < tr.indexOf (TurnEv.apiStart 2)) := by
  intro h
  exact absurd (h _ merge_overtake) (by decide)

theorem C6_witness :
    (chatTurnTrace 1).Sublist (chatTurnTrace 1 ++ chatTurnTrace 2) ∧
    (chatTurnTrace 2).Sublist (chatTurnTrace 1 ++ chatTurnTrace 2) ∧
    (chatTurnTrace 1 ++ chatTurnTrace 2).Perm (chatTurnTrace 1 ++ chatTurnTrace 2) ∧
    (∃ tr2, Merge (chatTurnTrace 1) (chatTurnTrace 2) tr2 ∧
       tr2.indexOf (TurnEv.apiStart 2) < tr2.indexOf (TurnEv.replySent 1)) :=
  C6_turns_may_interleave 1 2 (chatTurnTrace 1 ++ chatTurnTrace 2) merge_sequential

/-- C7: noninterference across chats: the reply, sends, API calls and the
sender's own flag updates depend only on the sender's flag entries, and
no flag entry of another chat is ever written. -/
theorem C7_noninterference (t : String → HttpMethod → Option JVal → HttpOutcome)
    (s1 s2 : BotState) (m : Msg)
    (hA : s1.activeAgents m.sender = s2.activeAgents m.sender)
    (hC : s1.chatModeActive m.sender = s2.chatModeActive m.sender) :
    ((onMessageCreate t s1 m).replies = (onMessageCreate t s2 m).replies ∧
     (onMessageCreate t s1 m).sent = (onMessageCreate t s2 m).sent ∧
     (onMessageCreate t s1 m).calls = (onMessageCreate t s2 m).calls ∧
     (onMessageCreate t s1 m).state.activeAgents m.sender
       = (onMessageCreate t s2 m).state.activeAgents m.sender ∧
     (onMessageCreate t s1 m).state.chatModeActive m.sender
       = (onMessageCreate t s2 m).state.chatModeActive m.sender) ∧
    (∀ c, c ≠ m.sender →
       ((onMessageCreate t s1 m).state.activeAgents c = s1.activeAgents c ∧
        (onMessageCreate t s1 m).state.chatModeActive c = s1.chatModeActive c) ∧
       ((onMessageCreate t s2 m).state.activeAgents c = s2.activeAgents c ∧
        (onMessageCreate t s2 m).state.chatModeActive c = s2.chatModeActive c)) :=
  ⟨obs_agree t s1 s2 m hA hC,
   fun c hc => ⟨state_frame t s1 m c hc, state_frame t s2 m c hc⟩⟩

theorem C7_witness :
    (onMessageCreate (okTransport (.obj [("message", .str "ok")])) (chatOn "cA")
       ⟨false, "cA", "hello"⟩).replies =
    (onMessageCreate (okTransport (.obj [("message", .str "ok")]))
       ⟨fun k => k == "other", fun k => k == "cA" || k == "other"⟩
       ⟨false, "cA", "hello"⟩).replies :=
  (C7_noninterference (okTransport (.obj [("message", .str "ok")])) (chatOn "cA")
    ⟨fun k => k == "other", fun k => k == "cA" || k == "other"⟩
    ⟨false, "cA", "hello"⟩ (by decide) (by decide)).1.1

/-- C8: chat mode takes precedence over every command: while the chat
flag is set, any non-exit message is relayed to POST /chat with the bot
state untouched, and an exit keyword clears only the chat flag of this
chat without any API call. -/
theorem C8_chat_mode_precedence (t : String → HttpMethod → Option JVal → HttpOutcome)
    (s : BotState) (m : Msg)
    (h1 : m.fromMe = false) (h2 : s.chatModeActive m.sender = true) :
    (¬(messageText m = "alfredo exit" ∨ messageText m = "exit"
        ∨ messageText m = "quit") →
       (onMessageCreate t s m).calls =
         [⟨"/chat", .POST, some (.obj [("message", .str m.body)])⟩] ∧
       (onMessageCreate t s m).state = s) ∧
    ((messageText m = "alfredo exit" ∨ messageText m = "exit"
        ∨ messageText m = "quit") →
       (onMessageCreate t s m).calls = [] ∧
       (onMessageCreate t s m).state.activeAgents = s.activeAgents ∧
       (onMessageCreate t s m).state.chatModeActive m.sender = false ∧
       (∀ c, c ≠ m.sender →
          (onMessageCreate t s m).state.chatModeActive c = s.chatModeActive c)) := by
  constructor
  · intro h3
    rcases hc : callCalendarAPI "/chat" .POST (some (.obj [("message", .str m.body)])) t with
      d | e <;> simp [onMessageCreate, h1, h2, h3, hc]
  · intro h3
    refine ⟨?_, ?_, ?_, ?_⟩ <;>
      simp [onMessageCreate, h1, h2, h3, mapDelete]
    intro c hc
    simp [hc]

theorem C8_witness :
    (onMessageCreate (okTransport (.obj [("message", .str "ok")])) (chatOn "c8")
       ⟨false, "c8", "alfredo help"⟩).calls =
      [⟨"/chat", .POST, some (.obj [("message", .str "alfredo help")])⟩] ∧
    (onMessageCreate (okTransport (.obj [("message", .str "ok")])) (chatOn "c8")
       ⟨false, "c8", "Alfredo EXIT "⟩).calls = [] := by
  constructor
  · exact ((C8_chat_mode_precedence (okTransport (.obj [("message", .str "ok")]))
      (chatOn "c8") ⟨false, "c8", "alfredo help"⟩ rfl rfl).1 (by decide)).1
  · exact ((C8_chat_mode_precedence (okTransport (.obj [("message", .str "ok")]))
      (chatOn "c8") ⟨false, "c8", "Alfredo EXIT "⟩ rfl rfl).2 (by decide)).1

/-- C9: caps mode: with the caps flag set (set by activate, cleared by
deactivate) and outside chat mode, any message whose trimmed lowercased
text matches no recognized command is answered with the uppercase of
the original body through `message.reply`, with no send through
`client.sendMessage` and no API call. -/
theorem C9_caps_mode (t : String → HttpMethod → Option JVal → HttpOutcome)
    (s : BotState) (m : Msg)
    (h1 : m.fromMe = false) (h2 : s.chatModeActive m.sender = false)
    (h3 : s.activeAgents m.sender = true) (h4 : messageText m ∉ commandTexts) :
    ((onMessageCreate t s m).replies = [jsToUpperCase m.body] ∧
     (onMessageCreate t s m).sent = [] ∧
     (onMessageCreate t s m).calls = [] ∧
     (onMessageCreate t s m).state = s) ∧
    (∀ s0 m0, m0.fromMe = false → s0.chatModeActive m0.sender = false →
       messageText m0 = "alfredo activate" →
       (onMessageCreate t s0 m0).state.activeAgents m0.sender = true) ∧
    (∀ s0 m0, m0.fromMe = false → s0.chatModeActive m0.sender = false →
       messageText m0 = "alfredo deactivate" →
       (onMessageCreate t s0 m0).state.activeAgents m0.sender = false) := by
  refine ⟨?_, ?_, ?_⟩
  · simp only [commandTexts, List.mem_cons, List.not_mem_nil, or_false, not_or] at h4
    obtain ⟨n1, n2, n3, n4, n5, n6, n7, n8, n9⟩ := h4
    simp [onMessageCreate, h1, h2, h3, n1, n2, n3, n4, n5, n6, n7, n8, n9]
  · intro s0 m0 g1 g2 g3
    simp [onMessageCreate, g1, g2, g3, mapSet]
  · intro s0 m0 g1 g2 g3
    simp [onMessageCreate, g1, g2, g3, mapDelete]

theorem C9_witness :
    (onMessageCreate (okTransport .null) (capsOn "c9") ⟨false, "c9", "!ping"⟩).replies =
      ["!PING"] ∧
    (onMessageCreate (okTransport .null) (capsOn "c9") ⟨false, "c9", "!ping"⟩).sent = [] := by
  have h := C9_caps_mode (okTransport .null) (capsOn "c9") ⟨false, "c9", "!ping"⟩
    rfl rfl rfl (by decide)
  exact ⟨by rw [h.1.1]; decide, h.1.2.1⟩

/-- C10: a message with fromMe set is ignored entirely: no reply, no
send, no API request, and the state is returned unchanged, whatever the
body. -/
theorem C10_fromMe_guard (t : String → HttpMethod → Option JVal → HttpOutcome)
    (s : BotState) (m : Msg) (h : m.fromMe = true) :
    onMessageCreate t s m = ⟨[], [], [], s⟩ := by
  simp [onMessageCreate, h]

theorem C10_witness :
    onMessageCreate (okTransport .null) noFlags ⟨true, "c10", "alfredo help"⟩ =
      ⟨[], [], [], noFlags⟩ :=
  C10_fromMe_guard (okTransport .null) noFlags ⟨true, "c10", "alfredo help"⟩ rfl

end Alfredo
